import Mathlib

/-!
Verification of the unit-price normalization engine of the amazon-sns
repository.

The engine lives in three JavaScript files: `scraper.mjs`,
`competitor-scraper.mjs` and an unnamed scraper source (`src/unnamed/part_000`).
Its core is the pure function `computeUnitPrice(itemName, totalPrice)`
together with a fixed table `UNIT_MAPPINGS` of category rules and (in the
unnamed variant) a helper `extractPackMultiplier(name, unitKeyword)`.

Modelling conventions:
* JavaScript numbers are modelled as exact rationals (`ℚ`); `NaN` is modelled
  explicitly by the type `JNum`.  An absent (`undefined`) price is `none`.
* The JavaScript regular expressions used by the engine are embedded as
  explicit syntax trees (`RE`) and executed by a backtracking matcher `mrun`
  that reproduces JavaScript semantics for the constructs the source uses
  (greedy `*` `+` `?`, leftmost match, left-biased alternation, capture
  groups, `\b`, `$`, case-insensitive comparison).  Character classes use the
  ASCII ranges (all patterns and all concrete inputs in the source are ASCII).
* `String.prototype.toLowerCase` is modelled by ASCII lowercasing.
-/

set_option maxHeartbeats 4000000
set_option maxRecDepth 4000

/-- ASCII lowercasing of a string, modelling `name.toLowerCase()`. -/
def lowerStr (s : String) : String :=
  String.mk (s.toList.map Char.toLower)

/-- Does list `h` start with list `n`? (helper for substring containment). -/
def listStarts (n h : List Char) : Bool :=
  match n, h with
  | [], _ => true
  | _ :: _, [] => false
  | a :: n2, b :: h2 => a = b && listStarts n2 h2

/-- Does list `h` contain `n` as a contiguous sublist? -/
def listHasSub (n : List Char) : List Char → Bool
  | [] => n.isEmpty
  | c :: rest => listStarts n (c :: rest) || listHasSub n rest

/-- `hay.includes(needle)` of JavaScript strings. -/
def strContains (hay needle : String) : Bool :=
  listHasSub needle.toList hay.toList

/-- Numeric value of a list of decimal digit characters. -/
def digitsVal (l : List Char) : Nat :=
  l.foldl (fun a c => a * 10 + (c.toNat - 48)) 0

/-- `parseInt` as used in the source: it is only applied to the text captured
by `(\d+)`, i.e. a nonempty string of decimal digits. -/
def parseInt (s : String) : Nat :=
  digitsVal s.toList

/-- A JavaScript number: either `NaN` or an exact rational value. -/
inductive JNum where
  | nan : JNum
  | val (q : ℚ) : JNum
deriving DecidableEq

/-- Multiply a `JNum` by a rational constant (`NaN` is absorbing). -/
def JNum.scale (j : JNum) (k : ℚ) : JNum :=
  match j with
  | .nan => .nan
  | .val q => .val (q * k)

/-- `parseFloat` as used in the source: it is only applied to text captured by
`(\d+)` or `([\d.]+)`, i.e. strings of digits and dots.  Following the
JavaScript grammar, the longest valid prefix `digits [. digits]` or
`. digits` is parsed; if there is none the result is `NaN`. -/
def parseFloat (s : String) : JNum :=
  let cs := s.toList
  let ip := cs.takeWhile Char.isDigit
  let rest := cs.drop ip.length
  if ip.isEmpty then
    match rest with
    | '.' :: r2 =>
      let fp := r2.takeWhile Char.isDigit
      if fp.isEmpty then .nan else .val ((digitsVal fp : ℚ) / 10 ^ fp.length)
    | _ => .nan
  else
    match rest with
    | '.' :: r2 =>
      let fp := r2.takeWhile Char.isDigit
      .val ((digitsVal ip : ℚ) + (digitsVal fp : ℚ) / 10 ^ fp.length)
    | _ => .val (digitsVal ip)

/-! ## A small JavaScript-regex engine -/

/-- The character classes appearing in the source's regular expressions. -/
inductive CC where
  | digit     -- \d
  | space     -- \s
  | word      -- \w
  | digitDot  -- [\d.]
  | dashSpace -- [- ]
deriving DecidableEq

/-- JavaScript `\w` (ASCII letters, digits, underscore). -/
def wordChar (c : Char) : Bool :=
  c.isAlpha || c.isDigit || c = '_'

/-- JavaScript `\s` (ASCII whitespace; the source's inputs are ASCII). -/
def spaceChar (c : Char) : Bool :=
  c = ' ' || c = '\t' || c = '\n' || c = '\r' || c = '\x0b' || c = '\x0c'

/-- Membership of a character in a character class. -/
def ccMem (k : CC) (c : Char) : Bool :=
  match k with
  | .digit => c.isDigit
  | .space => spaceChar c
  | .word => wordChar c
  | .digitDot => c.isDigit || c = '.'
  | .dashSpace => c = '-' || c = ' '

/-- Syntax of the regular expressions used by the engine. -/
inductive RE where
  | eps : RE
  | ch (c : Char) : RE          -- literal character (case-insensitive)
  | cls (k : CC) : RE           -- character class
  | dot : RE                    -- `.` (any character except newline)
  | seq (a b : RE) : RE
  | alt (a b : RE) : RE         -- `a|b`, left-biased
  | star (a : RE) : RE          -- greedy `*`
  | opt (a : RE) : RE           -- greedy `?`
  | grp (i : Nat) (a : RE) : RE -- capture group number `i`
  | eos : RE                    -- `$` (no multiline flag)
  | wb : RE                     -- `\b`
deriving DecidableEq

/-- Capture records: (group index, start position, end position). -/
abbrev Caps := List (Nat × Nat × Nat)

/-- Is position `pos` of `inp` a `\b` word boundary? -/
def atWB (inp : List Char) (pos : Nat) : Bool :=
  let before := if pos = 0 then false else
    match inp.get? (pos - 1) with
    | some c => wordChar c
    | none => false
  let after :=
    match inp.get? pos with
    | some c => wordChar c
    | none => false
  before != after

/-- Size of a regex tree, used to budget the matcher's fuel. -/
def rsize : RE → Nat
  | .seq a b => rsize a + rsize b + 1
  | .alt a b => rsize a + rsize b + 1
  | .star a => rsize a + 1
  | .opt a => rsize a + 1
  | .grp _ a => rsize a + 1
  | _ => 1

/-- The backtracking matcher.  `mrun inp fuel r pos caps` returns the list of
`(end position, captures)` pairs for all ways `r` can match `inp` starting at
`pos`, in JavaScript priority order (greedy repetition first, left alternative
first); the head of the list is the match JavaScript selects.  As in
JavaScript, an iteration of `*` must consume at least one character, so the
recursion depth along any path is bounded; `fuel` (decremented at every step,
structural recursion so that the kernel can evaluate) is passed with ample
budget by `matchAt`. -/
def mrun (inp : List Char) : Nat → RE → Nat → Caps → List (Nat × Caps)
  | 0, _, _, _ => []
  | _ + 1, .eps, pos, caps => [(pos, caps)]
  | _ + 1, .ch c, pos, caps =>
    match inp.get? pos with
    | some c2 => if Char.toLower c = Char.toLower c2 then [(pos + 1, caps)] else []
    | none => []
  | _ + 1, .cls k, pos, caps =>
    match inp.get? pos with
    | some c2 => if ccMem k c2 then [(pos + 1, caps)] else []
    | none => []
  | _ + 1, .dot, pos, caps =>
    match inp.get? pos with
    | some c2 => if c2 = '\n' then [] else [(pos + 1, caps)]
    | none => []
  | f + 1, .seq a b, pos, caps =>
    (mrun inp f a pos caps).flatMap (fun pc => mrun inp f b pc.1 pc.2)
  | f + 1, .alt a b, pos, caps =>
    mrun inp f a pos caps ++ mrun inp f b pos caps
  | f + 1, .star a, pos, caps =>
    ((mrun inp f a pos caps).flatMap (fun pc =>
      if pos < pc.1 then mrun inp f (.star a) pc.1 pc.2 else [])) ++ [(pos, caps)]
  | f + 1, .opt a, pos, caps =>
    mrun inp f a pos caps ++ [(pos, caps)]
  | f + 1, .grp i a, pos, caps =>
    (mrun inp f a pos caps).map (fun pc => (pc.1, (i, pos, pc.1) :: pc.2))
  | _ + 1, .eos, pos, caps => if pos = inp.length then [(pos, caps)] else []
  | _ + 1, .wb, pos, caps => if atWB inp pos then [(pos, caps)] else []

/-- First (JavaScript-selected) match of `r` at exactly position `i`.  The
fuel `(rsize r + 1) * (inp.length + 2)` dominates the matcher's recursion
depth: the abstract-syntax descent contributes at most `rsize r` per `*`
iteration, and each `*` iteration consumes at least one input character. -/
def matchAt (r : RE) (inp : List Char) (i : Nat) : Option (Nat × Caps) :=
  (mrun inp ((rsize r + 1) * (inp.length + 2)) r i []).head?

/-- Scan start positions left to right, as JavaScript match does. -/
def searchAux (r : RE) (inp : List Char) : Nat → Nat → Option (Nat × Nat × Caps)
  | 0, _ => none
  | k + 1, i =>
    match matchAt r inp i with
    | some pc => some (i, pc.1, pc.2)
    | none => searchAux r inp k (i + 1)

/-- Substring of `inp` from position `a` (inclusive) to `b` (exclusive). -/
def sliceStr (inp : List Char) (a b : Nat) : String :=
  String.mk ((inp.drop a).take (b - a))

/-- The data extracted from a successful `String.prototype.match`: the whole
matched text `m[0]` and the first capture `m[1]` (the only parts the source
reads). -/
structure MatchRes where
  m0 : String
  cap1 : String
deriving DecidableEq

/-- Look up the most recently completed capture of group `i`. -/
def capLookup (caps : Caps) (i : Nat) : Option (Nat × Nat) :=
  match caps with
  | [] => none
  | (j, a, b) :: rest => if j = i then some (a, b) else capLookup rest i

/-- `name.match(re)` restricted to the fields the source uses: `none` when the
regex does not match anywhere, otherwise the leftmost match. -/
def reFind (r : RE) (s : String) : Option MatchRes :=
  let inp := s.toList
  match searchAux r inp (inp.length + 1) 0 with
  | none => none
  | some (st, en, caps) =>
    some { m0 := sliceStr inp st en
           cap1 :=
             match capLookup caps 1 with
             | some ab => sliceStr inp ab.1 ab.2
             | none => "" }

/-- `re.test(s)` of JavaScript. -/
def reTest (r : RE) (s : String) : Bool :=
  (reFind r s).isSome

/-! ## Regex notation helpers (used to transcribe the source's literals) -/

/-- Concatenation of a list of regexes. -/
def rcat (l : List RE) : RE := l.foldr RE.seq RE.eps

/-- Literal string regex (each character matched case-insensitively). -/
def rstr (s : String) : RE := rcat (s.toList.map RE.ch)

/-- Greedy `+`. -/
def rplus (r : RE) : RE := RE.seq r (RE.star r)

/-- `(\d+)` -/
def dplus : RE := rplus (RE.cls .digit)

/-- `([\d.]+)` body -/
def ddplus : RE := rplus (RE.cls .digitDot)

/-- `\s*` -/
def sstar : RE := RE.star (RE.cls .space)

/-- `.*` -/
def kstar : RE := RE.star RE.dot

/-- Capture group 1. -/
def grp1 (r : RE) : RE := RE.grp 1 r

/-! ## Rounding and formatting -/

/-- `Math.round` on exact rationals: nearest integer, ties toward `+∞`. -/
def mathRound (x : ℚ) : ℤ := ⌊x + 1 / 2⌋

/-- `Math.round(u * 100) / 100`, the 2-decimal rounding the source applies. -/
def round2 (q : ℚ) : ℚ := ((mathRound (q * 100) : ℤ) : ℚ) / 100

/-- Left-pad a 2-digit fraction field. -/
def pad2 (n : Nat) : String := if n < 10 then "0" ++ toString n else toString n

/-- `u.toFixed(2)` on exact rationals: the integer `n` with `n / 100` nearest
to `u` (ties to the larger `n`), rendered with two decimals. -/
def toFixed2 (q : ℚ) : String :=
  let n : ℤ := mathRound (q * 100)
  if n < 0 then "-" ++ toString ((-n).toNat / 100) ++ "." ++ pad2 ((-n).toNat % 100)
  else toString (n.toNat / 100) ++ "." ++ pad2 (n.toNat % 100)

/-! ## The rule table -/

/-- The tagged variants of the `multiplier` closures in `UNIT_MAPPINGS`:
`coffee` converts lb/kg to oz, `seedsCI` converts lb to oz testing
`m[0].toLowerCase()`, `seedsCS` is `competitor-scraper.mjs`'s seeds variant
which tests `m[0]` without lowercasing. -/
inductive MultKind where
  | coffee
  | seedsCI
  | seedsCS
deriving DecidableEq

/-- Apply a `multiplier` closure to the match data `(m[0], m[1])`. -/
def applyMult (k : MultKind) (m0 m1 : String) : JNum :=
  match k with
  | .coffee =>
    let v := parseFloat m1
    if strContains (lowerStr m0) "lb" then v.scale 16
    else if strContains (lowerStr m0) "kg" then v.scale (35274 / 1000)
    else v
  | .seedsCI =>
    if strContains (lowerStr m0) "lb" then (parseFloat m1).scale 16 else parseFloat m1
  | .seedsCS =>
    if strContains m0 "lb" then (parseFloat m1).scale 16 else parseFloat m1

/-- One entry of `UNIT_MAPPINGS`: the key (kept both as text, for
`extractPackMultiplier`, and as the regex `new RegExp(keyword, 'i')`), the
output unit, the quantity pattern and the optional multiplier closure. -/
structure Rule where
  keyword : String
  keyRe : RE
  unit : String
  pattern : RE
  mult : Option MultKind
deriving DecidableEq

/-- `/(\d+)\s*cans?/i` -/
def patNumCans : RE := rcat [grp1 dplus, sstar, rstr "can", RE.opt (RE.ch 's')]

/-- `/([\d.]+)\s*lbs?/i` -/
def patDecLbs : RE := rcat [grp1 ddplus, sstar, rstr "lb", RE.opt (RE.ch 's')]

/-- `/(\d+)\s*lbs?/i` -/
def patIntLbs : RE := rcat [grp1 dplus, sstar, rstr "lb", RE.opt (RE.ch 's')]

/-- `/([\d.]+)\s*(?:lbs?|oz|kg)/i` -/
def patCoffeeQty : RE :=
  rcat [grp1 ddplus, sstar,
    RE.alt (RE.seq (rstr "lb") (RE.opt (RE.ch 's'))) (RE.alt (rstr "oz") (rstr "kg"))]

/-- `/(\d+)\s*oz/i` -/
def patIntOz : RE := rcat [grp1 dplus, sstar, rstr "oz"]

/-- `/([\d.]+)\s*(?:lbs?|oz)/i` -/
def patSeedsQty : RE :=
  rcat [grp1 ddplus, sstar, RE.alt (RE.seq (rstr "lb") (RE.opt (RE.ch 's'))) (rstr "oz")]

/-- `/(\d+)\s*(?:pack|count|ct)/i` -/
def patPackCountCt : RE :=
  rcat [grp1 dplus, sstar, RE.alt (rstr "pack") (RE.alt (rstr "count") (rstr "ct"))]

/-- `/(\d+)\s*tablets?/i` -/
def patNumTablets : RE := rcat [grp1 dplus, sstar, rstr "tablet", RE.opt (RE.ch 's')]

/-- `/(\d+)\s*softgels?/i` -/
def patNumSoftgels : RE := rcat [grp1 dplus, sstar, rstr "softgel", RE.opt (RE.ch 's')]

/-- `/(\d+)\s*bars?/i` -/
def patNumBars : RE := rcat [grp1 dplus, sstar, rstr "bar", RE.opt (RE.ch 's')]

/-- `/(\d+)[- ]?pack/i` -/
def patNumDashPack : RE := rcat [grp1 dplus, RE.opt (RE.cls .dashSpace), rstr "pack"]

/-- `/(\d+)\s*(?:ct|count|sheets?)/i` -/
def patCtCountSheets : RE :=
  rcat [grp1 dplus, sstar,
    RE.alt (rstr "ct") (RE.alt (rstr "count") (RE.seq (rstr "sheet") (RE.opt (RE.ch 's'))))]

/-- `/(\d+)\s*(?:count|ct|refills?)/i` -/
def patCountCtRefills : RE :=
  rcat [grp1 dplus, sstar,
    RE.alt (rstr "count") (RE.alt (rstr "ct") (RE.seq (rstr "refill") (RE.opt (RE.ch 's'))))]

/-- `/([\d.]+)\s*oz/i` -/
def patDecOz : RE := rcat [grp1 ddplus, sstar, rstr "oz"]

/-- `/(\d+)\s*(?:pack|filters?)/i` -/
def patPackFilters : RE :=
  rcat [grp1 dplus, sstar, RE.alt (rstr "pack") (RE.seq (rstr "filter") (RE.opt (RE.ch 's')))]

/-- `/(\d+)\s*rolls?/i` -/
def patNumRolls : RE := rcat [grp1 dplus, sstar, rstr "roll", RE.opt (RE.ch 's')]

/-- `/(\d+)\s*pack/i` -/
def patNumPack : RE := rcat [grp1 dplus, sstar, rstr "pack"]

/-- `/(\d+)\s*sq\s*ft/i` -/
def patSqFt : RE := rcat [grp1 dplus, sstar, rstr "sq", sstar, rstr "ft"]

/-- `/(\d+)\s*(?:count|ct)/i` -/
def patCountCt : RE := rcat [grp1 dplus, sstar, RE.alt (rstr "count") (rstr "ct")]

/-- `/(\d+)\s*(?:ct|count)/i` -/
def patCtCount : RE := rcat [grp1 dplus, sstar, RE.alt (rstr "ct") (rstr "count")]

/-- `/(\d+)\s*(?:\w+\s+)*rolls?/i` (competitor-scraper only) -/
def patRollsWords : RE :=
  rcat [grp1 dplus, sstar, RE.star (RE.seq (rplus (RE.cls .word)) (rplus (RE.cls .space))),
    rstr "roll", RE.opt (RE.ch 's')]

/-! ### The `UNIT_MAPPINGS` entries (scraper.mjs and the unnamed scraper) -/

/-- `'cat food.*cans': { unit: 'can', pattern: /(\d+)\s*cans?/i }` -/
def ruleCatFoodCans : Rule :=
  ⟨"cat food.*cans", rcat [rstr "cat food", kstar, rstr "cans"], "can", patNumCans, none⟩

/-- `'cat food.*lb': { unit: 'lb', pattern: /([\d.]+)\s*lbs?/i }` -/
def ruleCatFoodLb : Rule :=
  ⟨"cat food.*lb", rcat [rstr "cat food", kstar, rstr "lb"], "lb", patDecLbs, none⟩

/-- `'dog food.*lb': { unit: 'lb', pattern: /([\d.]+)\s*lbs?/i }` -/
def ruleDogFoodLb : Rule :=
  ⟨"dog food.*lb", rcat [rstr "dog food", kstar, rstr "lb"], "lb", patDecLbs, none⟩

/-- `'cat litter': { unit: 'lb', pattern: /(\d+)\s*lbs?/i }` -/
def ruleCatLitter : Rule := ⟨"cat litter", rstr "cat litter", "lb", patIntLbs, none⟩

/-- `'coffee': { unit: 'oz', pattern: /([\d.]+)\s*(?:lbs?|oz|kg)/i, multiplier: ... }` -/
def ruleCoffee : Rule := ⟨"coffee", rstr "coffee", "oz", patCoffeeQty, some .coffee⟩

/-- `'almonds': { unit: 'oz', pattern: /(\d+)\s*oz/i }` -/
def ruleAlmonds : Rule := ⟨"almonds", rstr "almonds", "oz", patIntOz, none⟩

/-- `'seeds': { unit: 'oz', pattern: /([\d.]+)\s*(?:lbs?|oz)/i, multiplier: ... }`
with the `m[0].toLowerCase()` lb test. -/
def ruleSeeds : Rule := ⟨"seeds", rstr "seeds", "oz", patSeedsQty, some .seedsCI⟩

/-- `'batteries': { unit: 'battery', pattern: /(\d+)\s*(?:pack|count|ct)/i }` -/
def ruleBatteries : Rule := ⟨"batteries", rstr "batteries", "battery", patPackCountCt, none⟩

/-- `'tablets': { unit: 'tablet', pattern: /(\d+)\s*tablets?/i }` -/
def ruleTablets : Rule := ⟨"tablets", rstr "tablets", "tablet", patNumTablets, none⟩

/-- `'softgels': { unit: 'softgel', pattern: /(\d+)\s*softgels?/i }` -/
def ruleSoftgels : Rule := ⟨"softgels", rstr "softgels", "softgel", patNumSoftgels, none⟩

/-- `'bars': { unit: 'bar', pattern: /(\d+)\s*bars?/i }` -/
def ruleBars : Rule := ⟨"bars", rstr "bars", "bar", patNumBars, none⟩

/-- `'deodorant.*pack': { unit: 'stick', pattern: /(\d+)[- ]?pack/i }` -/
def ruleDeodorantPack : Rule :=
  ⟨"deodorant.*pack", rcat [rstr "deodorant", kstar, rstr "pack"], "stick", patNumDashPack, none⟩

/-- `'dryer sheets': { unit: 'sheet', pattern: /(\d+)\s*(?:ct|count|sheets?)/i }` -/
def ruleDryerSheets : Rule := ⟨"dryer sheets", rstr "dryer sheets", "sheet", patCtCountSheets, none⟩

/-- `'wipes.*pack': { unit: 'pack', pattern: /(\d+)[- ]?pack/i }` -/
def ruleWipesPack : Rule :=
  ⟨"wipes.*pack", rcat [rstr "wipes", kstar, rstr "pack"], "pack", patNumDashPack, none⟩

/-- `'toothpaste.*pack': { unit: 'tube', pattern: /(\d+)[- ]?pack/i }` -/
def ruleToothpastePack : Rule :=
  ⟨"toothpaste.*pack", rcat [rstr "toothpaste", kstar, rstr "pack"], "tube", patNumDashPack, none⟩

/-- `'floss.*pack': { unit: 'pack', pattern: /(\d+)[- ]?pack/i }` -/
def ruleFlossPack : Rule :=
  ⟨"floss.*pack", rcat [rstr "floss", kstar, rstr "pack"], "pack", patNumDashPack, none⟩

/-- `'razor.*refills': { unit: 'cartridge', pattern: /(\d+)\s*(?:count|ct|refills?)/i }` -/
def ruleRazorRefills : Rule :=
  ⟨"razor.*refills", rcat [rstr "razor", kstar, rstr "refills"], "cartridge", patCountCtRefills, none⟩

/-- `'contact solution': { unit: 'oz', pattern: /([\d.]+)\s*oz/i }` -/
def ruleContactSolution : Rule := ⟨"contact solution", rstr "contact solution", "oz", patDecOz, none⟩

/-- `'soap.*refill': { unit: 'refill', pattern: /(\d+)[- ]?pack/i }` -/
def ruleSoapRefill : Rule :=
  ⟨"soap.*refill", rcat [rstr "soap", kstar, rstr "refill"], "refill", patNumDashPack, none⟩

/-- `'water filter': { unit: 'filter', pattern: /(\d+)\s*(?:pack|filters?)/i }` -/
def ruleWaterFilter : Rule := ⟨"water filter", rstr "water filter", "filter", patPackFilters, none⟩

/-- `'tape.*rolls': { unit: 'roll', pattern: /(\d+)\s*rolls?/i }` -/
def ruleTapeRolls : Rule :=
  ⟨"tape.*rolls", rcat [rstr "tape", kstar, rstr "rolls"], "roll", patNumRolls, none⟩

/-- `'tahini': { unit: 'pack', pattern: /(\d+)\s*pack/i }` -/
def ruleTahini : Rule := ⟨"tahini", rstr "tahini", "pack", patNumPack, none⟩

/-- `'plastic wrap': { unit: 'sq ft', pattern: /(\d+)\s*sq\s*ft/i }` -/
def rulePlasticWrap : Rule := ⟨"plastic wrap", rstr "plastic wrap", "sq ft", patSqFt, none⟩

/-- `'chocolate.*almonds': { unit: 'oz', pattern: /(\d+)\s*oz/i }` -/
def ruleChocolateAlmonds : Rule :=
  ⟨"chocolate.*almonds", rcat [rstr "chocolate", kstar, rstr "almonds"], "oz", patIntOz, none⟩

/-- `'cleanser.*oz': { unit: 'oz', pattern: /([\d.]+)\s*oz/i }` -/
def ruleCleanserOz : Rule :=
  ⟨"cleanser.*oz", rcat [rstr "cleanser", kstar, rstr "oz"], "oz", patDecOz, none⟩

/-- `'body scrub': { unit: 'oz', pattern: /([\d.]+)\s*oz/i }` -/
def ruleBodyScrub : Rule := ⟨"body scrub", rstr "body scrub", "oz", patDecOz, none⟩

/-- `'hand cream': { unit: 'oz', pattern: /([\d.]+)\s*oz/i }` -/
def ruleHandCream : Rule := ⟨"hand cream", rstr "hand cream", "oz", patDecOz, none⟩

/-- `'cologne|edt|perfume': { unit: 'oz', pattern: /([\d.]+)\s*oz/i }` -/
def ruleCologne : Rule :=
  ⟨"cologne|edt|perfume", RE.alt (rstr "cologne") (RE.alt (rstr "edt") (rstr "perfume")),
    "oz", patDecOz, none⟩

/-- `'shower.*count': { unit: 'tablet', pattern: /(\d+)\s*(?:count|ct)/i }` -/
def ruleShowerCount : Rule :=
  ⟨"shower.*count", rcat [rstr "shower", kstar, rstr "count"], "tablet", patCountCt, none⟩

/-- `'soft.picks': { unit: 'pick', pattern: /(\d+)\s*(?:ct|count)/i }` -/
def ruleSoftPicks : Rule :=
  ⟨"soft.picks", rcat [rstr "soft", RE.dot, rstr "picks"], "pick", patCtCount, none⟩

/-- `'melatonin': { unit: 'tablet', pattern: /(\d+)\s*tablets?/i }` -/
def ruleMelatonin : Rule := ⟨"melatonin", rstr "melatonin", "tablet", patNumTablets, none⟩

/-- The `UNIT_MAPPINGS` table shared verbatim by `scraper.mjs` and the unnamed
scraper, in object insertion order (the order `Object.entries` iterates). -/
def UNIT_MAPPINGS : List Rule :=
  [ruleCatFoodCans, ruleCatFoodLb, ruleDogFoodLb, ruleCatLitter, ruleCoffee,
   ruleAlmonds, ruleSeeds, ruleBatteries, ruleTablets, ruleSoftgels, ruleBars,
   ruleDeodorantPack, ruleDryerSheets, ruleWipesPack, ruleToothpastePack,
   ruleFlossPack, ruleRazorRefills, ruleContactSolution, ruleSoapRefill,
   ruleWaterFilter, ruleTapeRolls, ruleTahini, rulePlasticWrap,
   ruleChocolateAlmonds, ruleCleanserOz, ruleBodyScrub, ruleHandCream,
   ruleCologne, ruleShowerCount, ruleSoftPicks, ruleMelatonin]

/-- `'toilet paper': { unit: 'roll', pattern: /(\d+)\s*(?:\w+\s+)*rolls?/i }`
(competitor-scraper.mjs only). -/
def ruleToiletPaper : Rule := ⟨"toilet paper", rstr "toilet paper", "roll", patRollsWords, none⟩

/-- `'paper towels': { unit: 'roll', pattern: /(\d+)\s*(?:\w+\s+)*rolls?/i }`
(competitor-scraper.mjs only). -/
def rulePaperTowels : Rule := ⟨"paper towels", rstr "paper towels", "roll", patRollsWords, none⟩

/-- `competitor-scraper.mjs`'s seeds entry: same patterns but its lb test is
`m[0].includes('lb')` without `toLowerCase()`. -/
def ruleSeedsC : Rule := ⟨"seeds", rstr "seeds", "oz", patSeedsQty, some .seedsCS⟩

/-- The `UNIT_MAPPINGS` table of `competitor-scraper.mjs`: two extra leading
roll rules, and the case-sensitive seeds lb test. -/
def UNIT_MAPPINGS_C : List Rule :=
  [ruleToiletPaper, rulePaperTowels, ruleCatFoodCans, ruleCatFoodLb,
   ruleDogFoodLb, ruleCatLitter, ruleCoffee, ruleAlmonds, ruleSeedsC,
   ruleBatteries, ruleTablets, ruleSoftgels, ruleBars, ruleDeodorantPack,
   ruleDryerSheets, ruleWipesPack, ruleToothpastePack, ruleFlossPack,
   ruleRazorRefills, ruleContactSolution, ruleSoapRefill, ruleWaterFilter,
   ruleTapeRolls, ruleTahini, rulePlasticWrap, ruleChocolateAlmonds,
   ruleCleanserOz, ruleBodyScrub, ruleHandCream, ruleCologne, ruleShowerCount,
   ruleSoftPicks, ruleMelatonin]

/-! ### Pack multiplier detection (`extractPackMultiplier`, unnamed scraper) -/

/-- One entry of the `patterns` list inside `extractPackMultiplier`. -/
structure PackPat where
  re : RE
  container : String
deriving DecidableEq

/-- `/,\s*(\d+)\s*(STEMs?)\s*$/i` — the shape of the comma-anchored container
patterns; `stem` is the word with its final `s` made optional (so the source's
`(boxes?)` is `commaPat "boxe"`). -/
def commaPat (stem : String) : RE :=
  rcat [RE.ch ',', sstar, grp1 dplus, sstar,
    RE.grp 2 (RE.seq (rstr stem) (RE.opt (RE.ch 's'))), sstar, RE.eos]

/-- `{ re: /\(?\s*pack\s*of\s*(\d+)\s*\)?/i, container: 'pack' }` -/
def packPatOf : PackPat :=
  ⟨rcat [RE.opt (RE.ch '('), sstar, rstr "pack", sstar, rstr "of", sstar,
     grp1 dplus, sstar, RE.opt (RE.ch ')')], "pack"⟩

/-- `{ re: /(\d+)\s*-?\s*pack\b/i, container: 'pack' }` -/
def packPatNum : PackPat :=
  ⟨rcat [grp1 dplus, sstar, RE.opt (RE.ch '-'), sstar, rstr "pack", RE.wb], "pack"⟩

/-- `{ re: /,\s*(\d+)\s*(jars?)\s*$/i, container: 'jar' }` -/
def packPatJars : PackPat := ⟨commaPat "jar", "jar"⟩

/-- `{ re: /,\s*(\d+)\s*(bags?)\s*$/i, container: 'bag' }` -/
def packPatBags : PackPat := ⟨commaPat "bag", "bag"⟩

/-- `{ re: /,\s*(\d+)\s*(bottles?)\s*$/i, container: 'bottle' }` -/
def packPatBottles : PackPat := ⟨commaPat "bottle", "bottle"⟩

/-- `{ re: /,\s*(\d+)\s*(boxes?)\s*$/i, container: 'box' }` -/
def packPatBoxes : PackPat := ⟨commaPat "boxe", "box"⟩

/-- `{ re: /,\s*(\d+)\s*(tubes?)\s*$/i, container: 'tube' }` -/
def packPatTubes : PackPat := ⟨commaPat "tube", "tube"⟩

/-- `{ re: /,\s*(\d+)\s*(cans?)\s*$/i, container: 'can' }` -/
def packPatCans : PackPat := ⟨commaPat "can", "can"⟩

/-- `{ re: /,\s*(\d+)\s*(sticks?)\s*$/i, container: 'stick' }` -/
def packPatSticks : PackPat := ⟨commaPat "stick", "stick"⟩

/-- The `patterns` list of `extractPackMultiplier`, in source order. -/
def packPatterns : List PackPat :=
  [packPatOf, packPatNum, packPatJars, packPatBags, packPatBottles,
   packPatBoxes, packPatTubes, packPatCans, packPatSticks]

/-- The `for (const { re, container } of patterns)` loop of
`extractPackMultiplier`: on a match, `parseInt` the capture; skip the pattern
when the container word is not `"pack"` but the unit keyword contains it;
accept the captured integer when it lies in `[2, 24]`; otherwise continue. -/
def packLoop (name ukLower : String) : List PackPat → Nat
  | [] => 1
  | p :: rest =>
    match reFind p.re name with
    | none => packLoop name ukLower rest
    | some m =>
      if p.container ≠ "pack" ∧ strContains ukLower p.container = true then
        packLoop name ukLower rest
      else if 2 ≤ parseInt m.cap1 ∧ parseInt m.cap1 ≤ 24 then parseInt m.cap1
      else packLoop name ukLower rest

/-- `extractPackMultiplier(name, unitKeyword)` of the unnamed scraper. -/
def extractPackMultiplier (name unitKeyword : String) : Nat :=
  packLoop name (lowerStr unitKeyword) packPatterns

/-! ### `computeUnitPrice` (three variants) -/

/-- The result record `{ unitPrice, unit, count, formatted }`. -/
structure UPResult where
  unitPrice : ℚ
  unit : String
  count : ℚ
  formatted : String
deriving DecidableEq

/-- The raw count of a rule from its quantity match: the `multiplier` closure
when present, otherwise `parseFloat(match[1])`. -/
def rawCount (r : Rule) (m : MatchRes) : JNum :=
  match r.mult with
  | none => parseFloat m.cap1
  | some k => applyMult k m.m0 m.cap1

/-- Build the returned record from total price `p` and final count `cnt`:
`unitPrice` is the 2-decimal-rounded quotient, `formatted` applies
`toFixed(2)` to the unrounded quotient. -/
def mkResult (p cnt : ℚ) (u : String) : UPResult :=
  { unitPrice := round2 (p / cnt)
    unit := u
    count := cnt
    formatted := "$" ++ toFixed2 (p / cnt) ++ "/" ++ u }

/-- The loop body of `computeUnitPrice` in `scraper.mjs` and
`competitor-scraper.mjs` (no pack multiplier) for one rule: `none` means the
`continue` cases. -/
def tryRuleS (name : String) (p : ℚ) (r : Rule) : Option UPResult :=
  if reTest r.keyRe (lowerStr name) then
    match reFind r.pattern name with
    | none => none
    | some m =>
      match rawCount r m with
      | .nan => none
      | .val q => if q ≤ 0 then none else some (mkResult p q r.unit)
  else none

/-- The loop body of the unnamed scraper's `computeUnitPrice` for one rule:
after the count guard it applies `count *= extractPackMultiplier(itemName,
keyword)`. -/
def tryRuleP (name : String) (p : ℚ) (r : Rule) : Option UPResult :=
  if reTest r.keyRe (lowerStr name) then
    match reFind r.pattern name with
    | none => none
    | some m =>
      match rawCount r m with
      | .nan => none
      | .val q =>
        if q ≤ 0 then none
        else some (mkResult p (q * (extractPackMultiplier name r.keyword : ℚ)) r.unit)
  else none

/-- The `for ... of Object.entries(UNIT_MAPPINGS)` loop: first rule whose body
returns a result wins. -/
def runRulesWith (f : Rule → Option UPResult) : List Rule → Option UPResult
  | [] => none
  | r :: rest =>
    match f r with
    | some res => some res
    | none => runRulesWith f rest

/-- `computeUnitPrice(itemName, totalPrice)` of the unnamed scraper
(`src/unnamed/part_000`, lines 162–195): the price guard
`if (!totalPrice || totalPrice <= 0) return null` (absent, `NaN`, zero or
negative price), then the rule loop with the pack multiplier applied. -/
def computeUnitPrice (itemName : String) (totalPrice : Option JNum) : Option UPResult :=
  match totalPrice with
  | none => none
  | some .nan => none
  | some (.val p) =>
    if p ≤ 0 then none else runRulesWith (tryRuleP itemName p) UNIT_MAPPINGS

/-- `computeUnitPrice` of `scraper.mjs` (lines 124–152): same table, same
guards, but no pack-multiplier step. -/
def computeUnitPriceS (itemName : String) (totalPrice : Option JNum) : Option UPResult :=
  match totalPrice with
  | none => none
  | some .nan => none
  | some (.val p) =>
    if p ≤ 0 then none else runRulesWith (tryRuleS itemName p) UNIT_MAPPINGS

/-- `computeUnitPrice` of `competitor-scraper.mjs` (lines 154–183): the
scraper.mjs body over the competitor table. -/
def computeUnitPriceC (itemName : String) (totalPrice : Option JNum) : Option UPResult :=
  match totalPrice with
  | none => none
  | some .nan => none
  | some (.val p) =>
    if p ≤ 0 then none else runRulesWith (tryRuleS itemName p) UNIT_MAPPINGS_C

/-- Rounding to 2 decimal places, half away from zero — the rounding mode the
specification names for `unitPrice`.  (For nonnegative arguments this agrees
with `round2`, which is the half-toward-`+∞` rounding `Math.round` performs.) -/
def round2away (q : ℚ) : ℚ :=
  if 0 ≤ q then ((⌊q * 100 + 1 / 2⌋ : ℤ) : ℚ) / 100
  else -(((⌊-(q * 100) + 1 / 2⌋ : ℤ) : ℚ) / 100)

/-! ## General lemmas about the engine -/

theorem round2_eq_away {q : ℚ} (h : 0 ≤ q) : round2 q = round2away q := by
  simp [round2, round2away, mathRound, if_pos h]

theorem runRulesWith_eq_none (f : Rule → Option UPResult) :
    ∀ l : List Rule, (∀ r ∈ l, f r = none) → runRulesWith f l = none := by
  intro l
  induction l with
  | nil => intro _; rfl
  | cons r rest ih =>
    intro h
    have hr : f r = none := h r (by simp)
    simp only [runRulesWith, hr]
    exact ih fun r2 hr2 => h r2 (by simp [hr2])

theorem runRulesWith_append (f : Rule → Option UPResult) :
    ∀ l1 l2 : List Rule, (∀ r ∈ l1, f r = none) →
      runRulesWith f (l1 ++ l2) = runRulesWith f l2 := by
  intro l1
  induction l1 with
  | nil => intro l2 _; rfl
  | cons r rest ih =>
    intro l2 h
    have hr : f r = none := h r (by simp)
    simp only [List.cons_append, runRulesWith, hr]
    exact ih l2 fun r2 hr2 => h r2 (by simp [hr2])

theorem runRulesWith_some (f : Rule → Option UPResult) :
    ∀ l : List Rule, ∀ res, runRulesWith f l = some res → ∃ r ∈ l, f r = some res := by
  intro l
  induction l with
  | nil => intro res h; exact absurd h (by simp [runRulesWith])
  | cons r rest ih =>
    intro res h
    simp only [runRulesWith] at h
    cases hr : f r with
    | some res2 =>
      rw [hr] at h
      exact ⟨r, by simp, by simpa using h.symm ▸ hr⟩
    | none =>
      rw [hr] at h
      obtain ⟨r2, hr2, he⟩ := ih res h
      exact ⟨r2, by simp [hr2], he⟩

theorem packLoop_range (name ukl : String) :
    ∀ l : List PackPat, packLoop name ukl l = 1 ∨
      (2 ≤ packLoop name ukl l ∧ packLoop name ukl l ≤ 24) := by
  intro l
  induction l with
  | nil => left; rfl
  | cons p rest ih =>
    simp only [packLoop]
    cases hm : reFind p.re name with
    | none => exact ih
    | some m =>
      dsimp only
      by_cases hskip : p.container ≠ "pack" ∧ strContains ukl p.container = true
      · rw [if_pos hskip]; exact ih
      · rw [if_neg hskip]
        by_cases hr : 2 ≤ parseInt m.cap1 ∧ parseInt m.cap1 ≤ 24
        · rw [if_pos hr]; right; exact hr
        · rw [if_neg hr]; exact ih

theorem extractPM_range (name uk : String) :
    extractPackMultiplier name uk = 1 ∨
      (2 ≤ extractPackMultiplier name uk ∧ extractPackMultiplier name uk ≤ 24) :=
  packLoop_range name (lowerStr uk) packPatterns

theorem extractPM_pos (name uk : String) : 1 ≤ extractPackMultiplier name uk := by
  rcases extractPM_range name uk with h | ⟨h, _⟩
  · omega
  · omega

theorem tryRuleP_none_of_test {name : String} {p : ℚ} {r : Rule}
    (h : reTest r.keyRe (lowerStr name) = false) : tryRuleP name p r = none := by
  simp [tryRuleP, h]

theorem tryRuleS_none_of_test {name : String} {p : ℚ} {r : Rule}
    (h : reTest r.keyRe (lowerStr name) = false) : tryRuleS name p r = none := by
  simp [tryRuleS, h]

theorem tryRuleP_none_of_noMatch {name : String} {p : ℚ} {r : Rule}
    (h : reFind r.pattern name = none) : tryRuleP name p r = none := by
  simp [tryRuleP, h]

theorem tryRuleS_none_of_noMatch {name : String} {p : ℚ} {r : Rule}
    (h : reFind r.pattern name = none) : tryRuleS name p r = none := by
  simp [tryRuleS, h]

theorem tryRuleP_some_char {name : String} {p : ℚ} {r : Rule} {res : UPResult}
    (h : tryRuleP name p r = some res) :
    0 < res.count ∧ res.unitPrice = round2 (p / res.count) := by
  unfold tryRuleP at h
  by_cases h1 : reTest r.keyRe (lowerStr name) = true
  · rw [if_pos h1] at h
    cases h2 : reFind r.pattern name with
    | none => simp only [h2] at h; exact Option.noConfusion h
    | some m =>
      simp only [h2] at h
      cases h3 : rawCount r m with
      | nan => simp only [h3] at h; exact Option.noConfusion h
      | val q =>
        simp only [h3] at h
        by_cases hq : q ≤ 0
        · rw [if_pos hq] at h; exact Option.noConfusion h
        · rw [if_neg hq] at h
          injection h with h
          subst h
          have hq2 : 0 < q := not_le.mp hq
          have hpm : (1 : ℚ) ≤ (extractPackMultiplier name r.keyword : ℚ) := by
            exact_mod_cast extractPM_pos name r.keyword
          constructor
          · show (0 : ℚ) < (mkResult p (q * (extractPackMultiplier name r.keyword : ℚ)) r.unit).count
            simp only [mkResult]
            exact mul_pos hq2 (lt_of_lt_of_le one_pos hpm)
          · simp [mkResult]
  · rw [if_neg h1] at h; exact Option.noConfusion h

theorem tryRule_rel (name : String) (p : ℚ) (r : Rule) :
    ((tryRuleP name p r).isSome = (tryRuleS name p r).isSome) ∧
    ∀ a b, tryRuleP name p r = some a → tryRuleS name p r = some b →
      a.unit = b.unit ∧ ∃ k : ℕ, (k = 1 ∨ (2 ≤ k ∧ k ≤ 24)) ∧ a.count = b.count * k := by
  unfold tryRuleP tryRuleS
  by_cases h1 : reTest r.keyRe (lowerStr name) = true
  · rw [if_pos h1, if_pos h1]
    cases h2 : reFind r.pattern name with
    | none => simp
    | some m =>
      dsimp only
      cases h3 : rawCount r m with
      | nan => simp
      | val q =>
        dsimp only
        by_cases hq : q ≤ 0
        · rw [if_pos hq, if_pos hq]; simp
        · rw [if_neg hq, if_neg hq]
          refine ⟨rfl, ?_⟩
          intro a b ha hb
          injection ha with ha
          injection hb with hb
          subst ha
          subst hb
          refine ⟨rfl, extractPackMultiplier name r.keyword, extractPM_range name r.keyword, ?_⟩
          simp [mkResult]
  · rw [if_neg h1, if_neg h1]; simp

theorem runRules_rel (name : String) (p : ℚ) :
    ∀ l : List Rule,
      ((runRulesWith (tryRuleP name p) l).isSome = (runRulesWith (tryRuleS name p) l).isSome) ∧
      ∀ a b, runRulesWith (tryRuleP name p) l = some a →
        runRulesWith (tryRuleS name p) l = some b →
        a.unit = b.unit ∧ ∃ k : ℕ, (k = 1 ∨ (2 ≤ k ∧ k ≤ 24)) ∧ a.count = b.count * k := by
  intro l
  induction l with
  | nil => simp [runRulesWith]
  | cons r rest ih =>
    obtain ⟨hio, hrel⟩ := tryRule_rel name p r
    simp only [runRulesWith]
    cases hP : tryRuleP name p r with
    | some a0 =>
      cases hS : tryRuleS name p r with
      | some b0 =>
        dsimp only
        refine ⟨rfl, ?_⟩
        intro a b ha hb
        injection ha with ha
        injection hb with hb
        subst ha
        subst hb
        exact hrel a0 b0 hP hS
      | none => rw [hP, hS] at hio; simp at hio
    | none =>
      cases hS : tryRuleS name p r with
      | some b0 => rw [hP, hS] at hio; simp at hio
      | none => dsimp only; exact ih

theorem digitsVal_nines_aux :
    ∀ n a : ℕ,
      List.foldl (fun acc c => acc * 10 + (c.toNat - 48)) a (List.replicate n '9') + 1 =
        (a + 1) * 10 ^ n := by
  intro n
  induction n with
  | zero => intro a; simp
  | succ n ih =>
    intro a
    rw [List.replicate_succ, List.foldl_cons, ih]
    have h9 : ('9' : Char).toNat - 48 = 9 := rfl
    rw [h9, pow_succ]
    ring

theorem takeWhile_digit_nines :
    ∀ n : ℕ, List.takeWhile Char.isDigit (List.replicate n '9') = List.replicate n '9' := by
  intro n
  induction n with
  | zero => rfl
  | succ n ih =>
    rw [List.replicate_succ, List.takeWhile_cons]
    simp [ih]

/-- A string of `n ≥ 1` nines parses to the exact value `10 ^ n - 1`.  (For
`n ≥ 309` this value exceeds the largest finite IEEE-754 double, so the
JavaScript `parseFloat` returns `+Infinity` there.) -/
theorem parseFloat_nines (n : ℕ) (hn : 0 < n) :
    parseFloat (String.mk (List.replicate n '9')) = JNum.val ((10 : ℚ) ^ n - 1) := by
  have htake := takeWhile_digit_nines n
  have hne : (List.replicate n '9').isEmpty = false := by
    cases n with
    | zero => omega
    | succ m => rw [List.replicate_succ]; rfl
  have hval : digitsVal (List.replicate n '9') = 10 ^ n - 1 := by
    have := digitsVal_nines_aux n 0
    simp only [digitsVal]
    omega
  have hcs : (String.mk (List.replicate n '9')).toList = List.replicate n '9' := rfl
  have hcast : ((10 ^ n - 1 : ℕ) : ℚ) = (10 : ℚ) ^ n - 1 := by
    have h1 : 1 ≤ 10 ^ n := Nat.one_le_pow n 10 (by norm_num)
    push_cast [h1]
    ring
  simp only [parseFloat, hcs, htake, hne, Bool.false_eq_true, if_false, List.drop_length]
  rw [hval, hcast]

/-! ## The claims -/

/-- Claim C1.  The claim states that
`computeUnitPrice("Gillette Clinical Deodorant Cool Wave (3-pack)", 43.32)`
returns unit `"stick"`, count `3` and unitPrice `14.44`.  Evaluating the
embedded code shows the code instead returns count `9` and unitPrice `4.81`:
the deodorant rule's quantity pattern `/(\d+)[- ]?pack/i` already extracts `3`
from `"(3-pack)"`, and `extractPackMultiplier` then matches the same
`"3-pack"` text (container word `"pack"` is exempt from the skip guard) and
multiplies by `3` again — the double counting the code's own comment says the
skip exists to prevent.  This theorem records the code's actual behaviour at
the claimed input. -/
theorem c1_pack_double_count_eval :
    computeUnitPrice "Gillette Clinical Deodorant Cool Wave (3-pack)"
        (some (JNum.val (4332 / 100))) =
      some ⟨481 / 100, "stick", 9, "$4.81/stick"⟩ ∧
    extractPackMultiplier "Gillette Clinical Deodorant Cool Wave (3-pack)"
        "deodorant.*pack" = 3 := by
  with_unfolding_all decide

/-- Claim C2 counterexample.  On `"cat litter almonds 24 oz"` the
`'cat litter'` rule's match pattern fires on the lower-cased name but its
quantity pattern `/(\d+)\s*lbs?/i` fails, and `computeUnitPrice` nevertheless
produces a result from the later `'almonds'` category (unit `"oz"`, not the
cat-litter unit `"lb"`) — so a later rule in the table is consulted,
contradicting the claim. -/
theorem c2_fallthrough_counterexample :
    reTest ruleCatLitter.keyRe (lowerStr "cat litter almonds 24 oz") = true ∧
    reFind ruleCatLitter.pattern "cat litter almonds 24 oz" = none ∧
    computeUnitPrice "cat litter almonds 24 oz" (some (JNum.val 48)) =
      some ⟨2, "oz", 24, "$2.00/oz"⟩ := by
  with_unfolding_all decide

/-- Claim C2, amended.  When a category rule's match pattern fires on the
lower-cased name but its quantity pattern fails on the original name, both
`computeUnitPrice` variants fall through to the next rule in the table: the
computation continues exactly as on the remaining rules (rather than stopping
with no result, as the claim asserted). -/
theorem c2_fallthrough :
    ∀ (name : String) (p : ℚ) (r : Rule) (rest : List Rule),
      reTest r.keyRe (lowerStr name) = true →
      reFind r.pattern name = none →
      runRulesWith (tryRuleP name p) (r :: rest) = runRulesWith (tryRuleP name p) rest ∧
      runRulesWith (tryRuleS name p) (r :: rest) = runRulesWith (tryRuleS name p) rest := by
  intro name p r rest _ hfind
  constructor
  · simp only [runRulesWith]
    rw [tryRuleP_none_of_noMatch hfind]
  · simp only [runRulesWith]
    rw [tryRuleS_none_of_noMatch hfind]

/-- Witness for C2's amended theorem at the concrete counterexample input. -/
theorem c2_fallthrough_witness :
    runRulesWith (tryRuleP "cat litter almonds 24 oz" 48)
        (ruleCatLitter :: UNIT_MAPPINGS.drop 4) =
      runRulesWith (tryRuleP "cat litter almonds 24 oz" 48) (UNIT_MAPPINGS.drop 4) ∧
    runRulesWith (tryRuleS "cat litter almonds 24 oz" 48)
        (ruleCatLitter :: UNIT_MAPPINGS.drop 4) =
      runRulesWith (tryRuleS "cat litter almonds 24 oz" 48) (UNIT_MAPPINGS.drop 4) :=
  c2_fallthrough "cat litter almonds 24 oz" 48 ruleCatLitter (UNIT_MAPPINGS.drop 4)
    (by decide) (by decide)

/-- Claim C3.  An absent, `NaN` or non-positive price yields no result,
uniformly in the product name (so before any analysis of the name; the
embedding is a total function, so no exception is possible); and for a
positive price, if no category rule's match pattern fires on the lower-cased
name, the result is likewise absent. -/
theorem c3_price_guard_and_no_match :
    (∀ (name : String) (tp : Option JNum),
      (tp = none ∨ tp = some JNum.nan ∨ ∃ q ≤ 0, tp = some (JNum.val q)) →
      computeUnitPrice name tp = none) ∧
    (∀ (name : String) (p : ℚ), 0 < p →
      (∀ r ∈ UNIT_MAPPINGS, reTest r.keyRe (lowerStr name) = false) →
      computeUnitPrice name (some (JNum.val p)) = none) := by
  constructor
  · intro name tp h
    rcases h with rfl | rfl | ⟨q, hq, rfl⟩
    · rfl
    · rfl
    · simp only [computeUnitPrice]
      rw [if_pos hq]
  · intro name p hp hnone
    simp only [computeUnitPrice]
    rw [if_neg (not_le.mpr hp)]
    exact runRulesWith_eq_none _ _ fun r hr => tryRuleP_none_of_test (hnone r hr)

/-- Witness for C3 at concrete inputs: a negative price, a `NaN` price, an
absent price, and a positive price with the empty-string name (on which none
of the 31 match patterns fires). -/
theorem c3_price_guard_witness :
    computeUnitPrice "Purina Cat Chow Naturals Indoor (13 lb)" (some (JNum.val (-3))) = none ∧
    computeUnitPrice "Purina Cat Chow Naturals Indoor (13 lb)" (some JNum.nan) = none ∧
    computeUnitPrice "Purina Cat Chow Naturals Indoor (13 lb)" none = none ∧
    computeUnitPrice "" (some (JNum.val 5)) = none :=
  ⟨c3_price_guard_and_no_match.1 _ _ (Or.inr (Or.inr ⟨-3, by norm_num, rfl⟩)),
   c3_price_guard_and_no_match.1 _ _ (Or.inr (Or.inl rfl)),
   c3_price_guard_and_no_match.1 _ _ (Or.inl rfl),
   c3_price_guard_and_no_match.2 "" 5 (by norm_num) (by decide)⟩

/-- Claim C4.  Rule order decides: if every rule before `r` in the table
yields no result on a name but `r` yields one, `computeUnitPrice` returns
`r`'s result — with no condition on the rules after `r`, so in particular no
scoring against later rules that also match and no preference for a larger
quantity or a smaller unit price. -/
theorem c4_first_rule_wins :
    ∀ (name : String) (p : ℚ) (pre : List Rule) (r : Rule) (post : List Rule)
      (res : UPResult), 0 < p →
      UNIT_MAPPINGS = pre ++ r :: post →
      (∀ r2 ∈ pre, tryRuleP name p r2 = none) →
      tryRuleP name p r = some res →
      computeUnitPrice name (some (JNum.val p)) = some res := by
  intro name p pre r post res hp htable hpre hr
  simp only [computeUnitPrice]
  rw [if_neg (not_le.mpr hp), htable, runRulesWith_append _ pre _ hpre]
  simp only [runRulesWith]
  rw [hr]

/-- Witness for C4 on `"cat litter 20 lbs 100 tablets"`, which both the
`'cat litter'` rule (count 20, unit lb) and the later `'tablets'` rule
(count 100, a larger quantity and a smaller unit price) fire on: the earlier
rule's result is returned. -/
theorem c4_first_rule_wins_witness :
    computeUnitPrice "cat litter 20 lbs 100 tablets" (some (JNum.val 10)) =
      some ⟨1 / 2, "lb", 20, "$0.50/lb"⟩ ∧
    tryRuleP "cat litter 20 lbs 100 tablets" 10 ruleTablets =
      some ⟨1 / 10, "tablet", 100, "$0.10/tablet"⟩ :=
  ⟨c4_first_rule_wins "cat litter 20 lbs 100 tablets" 10
      [ruleCatFoodCans, ruleCatFoodLb, ruleDogFoodLb] ruleCatLitter
      (UNIT_MAPPINGS.drop 4) _ (by norm_num) rfl
      (by with_unfolding_all decide) (by with_unfolding_all decide),
   by with_unfolding_all decide⟩

/-- Claim C5 counterexample.  On `"30-pack, 3 jars"` the first matching,
non-skipped pack pattern is `/(\d+)\s*-?\s*pack\b/i`, whose capture `30` lies
outside `[2, 24]` and is rejected — but the multiplier does not stay `1` as
the claim asserts: the scan continues and the later jars pattern supplies
multiplier `3`. -/
theorem c5_reject_continues_counterexample :
    reFind packPatOf.re "30-pack, 3 jars" = none ∧
    reFind packPatNum.re "30-pack, 3 jars" = some ⟨"30-pack", "30"⟩ ∧
    ¬(2 ≤ parseInt "30" ∧ parseInt "30" ≤ 24) ∧
    extractPackMultiplier "30-pack, 3 jars" "almonds" = 3 := by
  decide

/-- Claim C5, amended.  `extractPackMultiplier` always returns `1` or an
integer in `[2, 24]`; the first matching, non-skipped pattern's captured
integer is accepted exactly when it lies in `[2, 24]`, but a capture outside
that range (such as 1 or 30) only rejects that pattern — the scan continues
with the later patterns, which may still supply a multiplier; `1` is returned
when no pattern matches (or every match is rejected or skipped). -/
theorem c5_pack_multiplier_range :
    (∀ name uk : String,
      extractPackMultiplier name uk = 1 ∨
        (2 ≤ extractPackMultiplier name uk ∧ extractPackMultiplier name uk ≤ 24)) ∧
    (∀ (name ukl : String) (pp : PackPat) (rest : List PackPat) (m : MatchRes),
      reFind pp.re name = some m →
      ¬(2 ≤ parseInt m.cap1 ∧ parseInt m.cap1 ≤ 24) →
      packLoop name ukl (pp :: rest) = packLoop name ukl rest) ∧
    (∀ (name ukl : String) (l : List PackPat),
      (∀ pp ∈ l, reFind pp.re name = none) → packLoop name ukl l = 1) := by
  refine ⟨fun name uk => extractPM_range name uk, ?_, ?_⟩
  · intro name ukl pp rest m hm hrange
    simp only [packLoop, hm]
    by_cases hskip : pp.container ≠ "pack" ∧ strContains ukl pp.container = true
    · rw [if_pos hskip]
    · rw [if_neg hskip, if_neg hrange]
  · intro name ukl l
    induction l with
    | nil => intro _; rfl
    | cons pp rest ih =>
      intro h
      simp only [packLoop, h pp (by simp)]
      exact ih fun pp2 h2 => h pp2 (by simp [h2])

/-- Witness for C5's amended theorem: the rejected `30` capture hands over to
the remaining patterns, and a name matching no pack pattern yields `1`. -/
theorem c5_pack_multiplier_range_witness :
    packLoop "30-pack, 3 jars" "almonds" (packPatNum :: packPatterns.drop 2) =
      packLoop "30-pack, 3 jars" "almonds" (packPatterns.drop 2) ∧
    packLoop "GUM Soft-Picks Advanced" "soft.picks" packPatterns = 1 :=
  ⟨c5_pack_multiplier_range.2.1 _ _ packPatNum _ ⟨"30-pack", "30"⟩ (by decide) (by decide),
   c5_pack_multiplier_range.2.2 _ _ _ (by decide)⟩

/-- Claim C6.  A matching pack pattern whose container word is not `"pack"`
is skipped (contributes nothing — the loop result is that of the remaining
patterns) whenever the category's unit keyword contains that container word;
in particular, for `"Purina Friskies Variety Pack Cat Food, 40 cans"` under
the `'cat food.*cans'` rule the `", 40 cans"` pack match is skipped and the
final count stays 40. -/
theorem c6_container_skip :
    (∀ (name ukl : String) (pp : PackPat) (rest : List PackPat) (m : MatchRes),
      pp.container ≠ "pack" →
      strContains ukl pp.container = true →
      reFind pp.re name = some m →
      packLoop name ukl (pp :: rest) = packLoop name ukl rest) ∧
    computeUnitPrice "Purina Friskies Variety Pack Cat Food, 40 cans"
        (some (JNum.val 20)) = some ⟨1 / 2, "can", 40, "$0.50/can"⟩ := by
  constructor
  · intro name ukl pp rest m hne hcont hm
    simp only [packLoop, hm]
    rw [if_pos ⟨hne, hcont⟩]
  · with_unfolding_all decide

/-- Witness for C6's skip guard at the Friskies input: the cans pack pattern
matches `", 40 cans"` but is skipped because the keyword `"cat food.*cans"`
contains `"can"`. -/
theorem c6_container_skip_witness :
    packLoop "Purina Friskies Variety Pack Cat Food, 40 cans" "cat food.*cans"
        (packPatCans :: packPatterns.drop 8) =
      packLoop "Purina Friskies Variety Pack Cat Food, 40 cans" "cat food.*cans"
        (packPatterns.drop 8) :=
  c6_container_skip.1 _ _ packPatCans _ ⟨", 40 cans", "40"⟩ (by decide) (by decide)
    (by decide)

/-- Claim C7.  Whenever `computeUnitPrice` returns a result, the count is
positive and the `unitPrice` field is the total price divided by that count,
rounded to 2 decimal places half-away-from-zero (for the positive quotients
the code produces, `Math.round(u * 100) / 100`'s half-toward-`+∞` tie rule
coincides with half-away-from-zero); and the spec's concrete instance: a
25-oz name at 9.76 gives unitPrice 0.39 and unit `"oz"`. -/
theorem c7_round_half_away :
    (∀ (name : String) (p : ℚ) (res : UPResult),
      computeUnitPrice name (some (JNum.val p)) = some res →
      0 < res.count ∧ res.unitPrice = round2away (p / res.count)) ∧
    computeUnitPrice "Blue Diamond Dark Chocolate Almonds (25 oz)"
        (some (JNum.val (976 / 100))) = some ⟨39 / 100, "oz", 25, "$0.39/oz"⟩ := by
  constructor
  · intro name p res h
    simp only [computeUnitPrice] at h
    by_cases hp : p ≤ 0
    · rw [if_pos hp] at h
      exact Option.noConfusion h
    · rw [if_neg hp] at h
      obtain ⟨r, _, hr⟩ := runRulesWith_some _ _ _ h
      obtain ⟨hc, hu⟩ := tryRuleP_some_char hr
      refine ⟨hc, ?_⟩
      rw [hu, round2_eq_away]
      exact le_of_lt (div_pos (not_le.mp hp) hc)
  · with_unfolding_all decide

/-- Witness for C7 at the concrete 25-oz input. -/
theorem c7_round_half_away_witness :
    0 < ((⟨39 / 100, "oz", 25, "$0.39/oz"⟩ : UPResult)).count ∧
    (⟨39 / 100, "oz", 25, "$0.39/oz"⟩ : UPResult).unitPrice =
      round2away (976 / 100 / (⟨39 / 100, "oz", 25, "$0.39/oz"⟩ : UPResult).count) :=
  c7_round_half_away.1 "Blue Diamond Dark Chocolate Almonds (25 oz)" (976 / 100) _
    (by with_unfolding_all decide)

/-- Claim C8.  The true parts of the claim: an extracted count of `NaN`
(first conjunct) or `≤ 0` (second conjunct) makes the rule produce no result
and the loop continue with the remaining rules.  The remaining conjuncts
document the missing finiteness guard behind the claim's `code_bug`: a
320-digit captured quantity parses (in this exact-rational model) to
`10 ^ 320 - 1` — far beyond the largest finite IEEE-754 double, i.e.
`parseFloat` yields `+Infinity` in JavaScript — and the only guard between
the extracted count and the division is `¬ q ≤ 0` (`!count || count <= 0`),
which such a value passes, so the rule returns a result rather than rejecting
the non-finite quantity. -/
theorem c8_quantity_guard :
    (∀ (name : String) (p : ℚ) (r : Rule) (rest : List Rule) (m : MatchRes),
      reFind r.pattern name = some m → rawCount r m = JNum.nan →
      runRulesWith (tryRuleP name p) (r :: rest) = runRulesWith (tryRuleP name p) rest) ∧
    (∀ (name : String) (p : ℚ) (r : Rule) (rest : List Rule) (m : MatchRes) (q : ℚ),
      reFind r.pattern name = some m → rawCount r m = JNum.val q → q ≤ 0 →
      runRulesWith (tryRuleP name p) (r :: rest) = runRulesWith (tryRuleP name p) rest) ∧
    parseFloat (String.mk (List.replicate 320 '9')) = JNum.val ((10 : ℚ) ^ 320 - 1) ∧
    (∀ (name : String) (p : ℚ) (r : Rule) (m : MatchRes) (q : ℚ),
      reTest r.keyRe (lowerStr name) = true →
      reFind r.pattern name = some m →
      rawCount r m = JNum.val q → ¬q ≤ 0 →
      tryRuleP name p r =
        some (mkResult p (q * (extractPackMultiplier name r.keyword : ℚ)) r.unit)) := by
  refine ⟨?_, ?_, ?_, ?_⟩
  · intro name p r rest m hm hnan
    have hnone : tryRuleP name p r = none := by
      unfold tryRuleP
      by_cases h1 : reTest r.keyRe (lowerStr name) = true
      · rw [if_pos h1]
        simp only [hm, hnan]
      · rw [if_neg h1]
    simp only [runRulesWith, hnone]
  · intro name p r rest m q hm hq hle
    have hnone : tryRuleP name p r = none := by
      unfold tryRuleP
      by_cases h1 : reTest r.keyRe (lowerStr name) = true
      · rw [if_pos h1]
        simp only [hm, hq]
        rw [if_pos hle]
      · rw [if_neg h1]
    simp only [runRulesWith, hnone]
  · exact parseFloat_nines 320 (by norm_num)
  · intro name p r m q h1 h2 h3 h4
    unfold tryRuleP
    rw [if_pos h1]
    simp only [h2, h3]
    rw [if_neg h4]

/-- Witness for C8's guard conjuncts: a `NaN` count (dots-only capture) and a
zero count each fall through to the remaining rules, and a positive count
passes the only guard and produces the result. -/
theorem c8_quantity_guard_witness :
    runRulesWith (tryRuleP "seeds ...oz" 5) [ruleSeeds] =
      runRulesWith (tryRuleP "seeds ...oz" 5) [] ∧
    runRulesWith (tryRuleP "almonds 0 oz" 5) [ruleAlmonds] =
      runRulesWith (tryRuleP "almonds 0 oz" 5) [] ∧
    tryRuleP "almonds 24 oz" 5 ruleAlmonds =
      some (mkResult 5 (24 * (extractPackMultiplier "almonds 24 oz" "almonds" : ℚ)) "oz") :=
  ⟨c8_quantity_guard.1 _ 5 ruleSeeds [] ⟨"...oz", "..."⟩ (by decide)
      (by with_unfolding_all decide),
   c8_quantity_guard.2.1 _ 5 ruleAlmonds [] ⟨"0 oz", "0"⟩ 0 (by decide)
      (by with_unfolding_all decide) le_rfl,
   c8_quantity_guard.2.2.2 _ 5 ruleAlmonds ⟨"24 oz", "24"⟩ 24 (by decide) (by decide)
      (by with_unfolding_all decide) (by norm_num)⟩

/-- Claim C9 counterexample.  The unnamed scraper's `computeUnitPrice` and
`scraper.mjs`'s `computeUnitPrice` disagree at
`("Gillette Clinical Deodorant Cool Wave (3-pack)", 43.32)` (count 9 and
unitPrice 4.81 versus count 3 and unitPrice 14.44), so the three variants are
not extensionally equal. -/
theorem c9_variants_counterexample :
    ¬(computeUnitPrice "Gillette Clinical Deodorant Cool Wave (3-pack)"
          (some (JNum.val (4332 / 100))) =
      computeUnitPriceS "Gillette Clinical Deodorant Cool Wave (3-pack)"
          (some (JNum.val (4332 / 100)))) := by
  with_unfolding_all decide

/-- Claim C9, amended.  The three variants are not extensionally equal.  What
does hold: the unnamed scraper's and `scraper.mjs`'s variants are defined on
exactly the same inputs, agree on the unit, and the former's count is the
latter's count times a pack multiplier `k` with `k = 1` or `2 ≤ k ≤ 24` (so
they coincide exactly when `k = 1`); `competitor-scraper.mjs` differs from
both — its extra `'toilet paper'`/`'paper towels'` roll rules return a result
at `("toilet paper 24 rolls", 12)` where both other variants return none. -/
theorem c9_variant_relation :
    (∀ (name : String) (tp : Option JNum),
      ((computeUnitPrice name tp).isSome = (computeUnitPriceS name tp).isSome) ∧
      ∀ a b, computeUnitPrice name tp = some a → computeUnitPriceS name tp = some b →
        a.unit = b.unit ∧ ∃ k : ℕ, (k = 1 ∨ (2 ≤ k ∧ k ≤ 24)) ∧ a.count = b.count * k) ∧
    (computeUnitPriceC "toilet paper 24 rolls" (some (JNum.val 12)) =
        some ⟨1 / 2, "roll", 24, "$0.50/roll"⟩ ∧
      computeUnitPriceS "toilet paper 24 rolls" (some (JNum.val 12)) = none ∧
      computeUnitPrice "toilet paper 24 rolls" (some (JNum.val 12)) = none) := by
  constructor
  · intro name tp
    cases tp with
    | none => simp [computeUnitPrice, computeUnitPriceS]
    | some j =>
      cases j with
      | nan => simp [computeUnitPrice, computeUnitPriceS]
      | val p =>
        simp only [computeUnitPrice, computeUnitPriceS]
        by_cases hp : p ≤ 0
        · rw [if_pos hp, if_pos hp]
          simp
        · rw [if_neg hp, if_neg hp]
          exact runRules_rel name p UNIT_MAPPINGS
  · exact ⟨by with_unfolding_all decide, by with_unfolding_all decide,
      by with_unfolding_all decide⟩

/-- Witness for C9's amended relation at the Gillette input: same unit, and
the unnamed scraper's count 9 is `scraper.mjs`'s count 3 times the pack
multiplier 3. -/
theorem c9_variant_relation_witness :
    ("stick" : String) = "stick" ∧
    ∃ k : ℕ, (k = 1 ∨ (2 ≤ k ∧ k ≤ 24)) ∧ (9 : ℚ) = 3 * k :=
  (c9_variant_relation.1 "Gillette Clinical Deodorant Cool Wave (3-pack)"
      (some (JNum.val (4332 / 100)))).2
    ⟨481 / 100, "stick", 9, "$4.81/stick"⟩ ⟨361 / 25, "stick", 3, "$14.44/stick"⟩
    (by with_unfolding_all decide) (by with_unfolding_all decide)
